import Mathlib

/-!
Verification of the task-orchestration engine of the Agentic Workflow Engine.

The definitions below are a shallow embedding of the Python sources:
  - `core/state.py`    : `TaskStatus`, `Task`, `WorkflowContext`, `WorkflowState`,
                         `create_initial_state`
  - `core/engine.py`   : the five LangGraph nodes (`_plan_node`, `_execute_node`,
                         `_decide_node`, `_handle_failure_node`, `_complete_node`)
                         and the router `_should_continue`
  - `agents/planner.py`: `decide_next_tasks` (the deterministic readiness filter)
  - `agents/executor_agent.py`: `handle_failure` (the retry/failure policy)
  - `core/executor.py` : `ActionExecutor.execute` (the action dispatch contract)

External effects (the LLM planner and failure advisor, action I/O, wall-clock
time) are modelled as explicit oracle parameters: each engine node takes the
outcome produced by the external collaborator as an argument, so theorems
quantify over every possible behaviour of those collaborators.  Python dicts
are modelled as association lists (Python dicts preserve insertion order and
the decide node iterates keys in that order); `datetime.now()` is an abstract
`Nat` passed into each step.
-/

namespace AgenticWorkflow

/-- Association-list lookup: returns the value bound to the first occurrence
of the key, mirroring Python dict access `d[k]` / `d.get(k)`. -/
def lookupA {α : Type} : List (String × α) → String → Option α
  | [], _ => none
  | (k, v) :: rest, key => if k = key then some v else lookupA rest key

/-- Association-list insert-or-replace, mirroring Python dict assignment
`d[k] = v`: an existing key keeps its position, a new key is appended. -/
def insertA {α : Type} : List (String × α) → String → α → List (String × α)
  | [], key, v => [(key, v)]
  | (k, v0) :: rest, key, v =>
      if k = key then (k, v) :: rest else (k, v0) :: insertA rest key v

/-- Keys of an association list, in order (Python `list(d.keys())`). -/
def keysA {α : Type} (l : List (String × α)) : List String := l.map Prod.fst

/-- `TaskStatus` from `core/state.py`. -/
inductive TaskStatus where
  | pending
  | inProgress
  | completed
  | failed
  | skipped
  | retrying
deriving DecidableEq, Repr

/-- `Task` from `core/state.py`.  `action_config` is an opaque key-value
payload; `result` payloads and error strings are modelled as `String`;
timestamps as `Nat`. -/
structure Task where
  task_id : String
  name : String
  description : String
  action_type : String
  action_config : List (String × String)
  status : TaskStatus
  dependencies : List String
  retry_count : Nat
  error : Option String
  result : Option String
  started_at : Option Nat
  completed_at : Option Nat
deriving DecidableEq, Repr

/-- `WorkflowContext` from `core/state.py`.  Of the free-form `metadata`
dict the engine only ever reads the key `max_retries` (in
`executor_agent.handle_failure`, with default 3), so the metadata is
modelled by that single optional entry. -/
structure WorkflowContext where
  workflow_id : String
  goal : String
  started_at : Nat
  completed_at : Option Nat
  status : String
  metadata_max_retries : Option Nat
deriving DecidableEq, Repr

/-- One entry of `execution_history` (appended by `_execute_node`): task id,
outcome tag, timestamp, and the result/error payload. -/
structure HistoryEntry where
  task_id : String
  status : String
  timestamp : Nat
  payload : Option String
deriving DecidableEq, Repr

/-- One entry of the workflow-level `errors` log (appended by `_plan_node`
on planner failure). -/
structure ErrorEntry where
  step : String
  error : String
  timestamp : Nat
deriving DecidableEq, Repr

/-- `WorkflowState` from `core/state.py`. -/
structure WorkflowState where
  context : WorkflowContext
  tasks : List (String × Task)
  execution_history : List HistoryEntry
  current_task : Option String
  memory : List (String × String)
  errors : List ErrorEntry
  next_tasks : List String
  completed_tasks : List String
  failed_tasks : List String
deriving DecidableEq, Repr

/-- `create_initial_state` from `core/state.py`. -/
def createInitialState (workflow_id goal : String) (now : Nat) : WorkflowState :=
  { context :=
      { workflow_id := workflow_id
        goal := goal
        started_at := now
        completed_at := none
        status := "running"
        metadata_max_retries := none }
    tasks := []
    execution_history := []
    current_task := none
    memory := []
    errors := []
    next_tasks := []
    completed_tasks := []
    failed_tasks := [] }

/-- The engine-wide settings read by `engine.py` (`config.py`); only
`max_retries` (default 3) is consulted by the orchestration code. -/
structure Settings where
  max_retries : Nat
deriving DecidableEq, Repr

/-- Default settings from `config.py`: `max_retries: int = 3`. -/
def defaultSettings : Settings := { max_retries := 3 }

/-- `state["context"]["metadata"].get("max_retries", 3)` as read by
`executor_agent.handle_failure`. -/
def getMaxRetries (ctx : WorkflowContext) : Nat := ctx.metadata_max_retries.getD 3

/-- One validated task descriptor, the element shape of the planner's output
consumed by `_plan_node` (after `plan_workflow` has filled in the
`task_id`/`dependencies` defaults). -/
structure PlanTask where
  task_id : String
  name : String
  description : String
  action_type : String
  action_config : List (String × String)
  dependencies : List String
deriving DecidableEq, Repr

/-- The dict built by the loop in `_plan_node`: each descriptor becomes a
`Pending` task with `retry_count = 0` and no error/result/timestamps. -/
def planTaskToTask (td : PlanTask) : Task :=
  { task_id := td.task_id
    name := td.name
    description := td.description
    action_type := td.action_type
    action_config := td.action_config
    status := TaskStatus.pending
    dependencies := td.dependencies
    retry_count := 0
    error := none
    result := none
    started_at := none
    completed_at := none }

/-- `task_dict` built in `_plan_node` (`task_dict[task["task_id"]] = task`). -/
def buildTaskDict (ts : List PlanTask) : List (String × Task) :=
  ts.foldl (fun acc td => insertA acc td.task_id (planTaskToTask td)) []

/-- `_plan_node` from `core/engine.py`.  The planner call is the oracle:
`Except.ok` is a validated descriptor list, `Except.error` the message of the
exception raised by `plan_workflow` (e.g. the `PlanningError`). -/
def planNode (plannerResult : Except String (List PlanTask)) (now : Nat)
    (s : WorkflowState) : WorkflowState :=
  match plannerResult with
  | Except.ok ts =>
      { s with
        tasks := buildTaskDict ts
        next_tasks := (ts.filter (fun t => t.dependencies = [])).map (fun t => t.task_id) }
  | Except.error e =>
      { s with
        errors := s.errors ++ [{ step := "plan", error := e, timestamp := now }]
        context := { s.context with status := "failed" } }

/-- Outcome of `executor_agent.execute_task` as seen by `_execute_node`:
either `status="success"` with a data payload or `status="failed"` with an
error string (the agent always yields a string in its failure paths). -/
inductive ExecResult where
  | success (data : String)
  | failure (error : String)
deriving DecidableEq, Repr

/-- `_execute_node` from `core/engine.py`.  `res` is the dispatch outcome
oracle.  The `none` lookup branch returns the state unchanged where Python
would raise `KeyError`; it is unreachable for invariant-satisfying states. -/
def executeNode (res : ExecResult) (now : Nat) (s : WorkflowState) : WorkflowState :=
  match s.next_tasks with
  | [] => s
  | current :: _ =>
    match lookupA s.tasks current with
    | none => s
    | some task =>
      let remaining := s.next_tasks.filter (fun tid => tid ≠ current)
      match res with
      | ExecResult.success data =>
          let task' := { task with
            status := TaskStatus.completed
            result := some data
            error := none
            started_at := some now
            completed_at := some now }
          { s with
            tasks := insertA s.tasks current task'
            completed_tasks := s.completed_tasks ++ [current]
            memory := insertA s.memory ("task_" ++ current ++ "_result") data
            execution_history := s.execution_history ++
              [{ task_id := current, status := "success", timestamp := now,
                 payload := some data }]
            next_tasks := remaining
            current_task := none }
      | ExecResult.failure err =>
          let task' := { task with
            status := TaskStatus.failed
            error := some err
            started_at := some now
            completed_at := some now }
          { s with
            tasks := insertA s.tasks current task'
            failed_tasks := s.failed_tasks ++ [current]
            execution_history := s.execution_history ++
              [{ task_id := current, status := "failed", timestamp := now,
                 payload := some err }]
            next_tasks := remaining
            current_task := none }

/-- `task.get("dependencies", [])` after `state["tasks"].get(task_id, {})`:
the dependency list of a task id, defaulting to `[]` for a missing id. -/
def taskDeps (s : WorkflowState) (id : String) : List String :=
  match lookupA s.tasks id with
  | some t => t.dependencies
  | none => []

/-- `all(dep in completed for dep in dependencies)`. -/
def depsSatisfied (s : WorkflowState) (id : String) : Bool :=
  (taskDeps s id).all (fun d => decide (d ∈ s.completed_tasks))

/-- The `available` list computed by `_decide_node`: task ids, in insertion
order, not yet completed or failed and with all dependencies completed. -/
def availableTasks (s : WorkflowState) : List String :=
  (keysA s.tasks).filter (fun id =>
    !(decide (id ∈ s.completed_tasks)) && !(decide (id ∈ s.failed_tasks)) &&
      depsSatisfied s id)

/-- `decide_next_tasks` from `agents/planner.py` (deterministic code, no LLM
involved): filters `available` by the same completed/failed/dependency
conditions. -/
def decideNextTasks (s : WorkflowState) (available : List String) : List String :=
  if available = [] then []
  else available.filter (fun id =>
    depsSatisfied s id &&
      !(decide (id ∈ s.completed_tasks)) && !(decide (id ∈ s.failed_tasks)))

/-- `_decide_node` from `core/engine.py`: recompute `available`, and set
`next_tasks` to `[]` when it is empty, else to `decide_next_tasks`. -/
def decideNode (s : WorkflowState) : WorkflowState :=
  let available := availableTasks s
  if available = [] then { s with next_tasks := [] }
  else { s with next_tasks := decideNextTasks s available }

/-- `_should_continue` from `core/engine.py`: route to `"execute"`,
`"handle_failure"` or `"complete"`.  A failed id missing from `tasks` is
treated as not-retryable where Python would raise `KeyError` (unreachable
under the invariant). -/
def shouldContinue (settings : Settings) (s : WorkflowState) : String :=
  if s.next_tasks = [] then
    if (s.failed_tasks.filter (fun tid =>
          match lookupA s.tasks tid with
          | some t => decide (t.retry_count < settings.max_retries)
          | none => false)) ≠ [] then "handle_failure"
    else "complete"
  else "execute"

/-- A failure-handling decision as consumed by `_handle_failure_node`
(`decision["action"]`); the optional `modifications` payload of a
`modify` decision is never read by the engine and is omitted. -/
structure Decision where
  action : String
  reason : String
deriving DecidableEq, Repr

/-- `executor_agent.handle_failure` from `agents/executor_agent.py`.
`advisorDecision` is the LLM oracle: `some d` is a parsed advisor decision,
`none` the exception path (advisor unreachable or unparseable JSON), which
falls back to retry-if-budget.  The hard ceiling `retry_count >= max_retries`
short-circuits before the advisor is consulted. -/
def handleFailurePolicy (advisorDecision : Option Decision)
    (retry_count max_retries : Nat) : Decision :=
  if max_retries ≤ retry_count then
    { action := "fail_workflow"
      reason := "Max retries (" ++ toString max_retries ++ ") exceeded" }
  else
    match advisorDecision with
    | some d => d
    | none =>
        { action := if retry_count < max_retries then "retry" else "fail_workflow"
          reason := "Default decision" }

/-- The loop in `_handle_failure_node` selecting the first failed task with
`retry_count < settings.max_retries` (missing ids are never selected where
Python would raise `KeyError`; unreachable under the invariant). -/
def findRetryTask (s : WorkflowState) (settings : Settings) : Option String :=
  s.failed_tasks.find? (fun tid =>
    match lookupA s.tasks tid with
    | some t => decide (t.retry_count < settings.max_retries)
    | none => false)

/-- `_handle_failure_node` from `core/engine.py`.  `advisor` is the oracle
for the per-task LLM advisor outcome fed into `handleFailurePolicy`. -/
def handleFailureNode (advisor : String → Option Decision) (settings : Settings)
    (now : Nat) (s : WorkflowState) : WorkflowState :=
  if s.failed_tasks = [] then s
  else
    match findRetryTask s settings with
    | none =>
        { s with context :=
            { s.context with status := "failed", completed_at := some now } }
    | some tid =>
      match lookupA s.tasks tid with
      | none => s
      | some task =>
        let decision :=
          handleFailurePolicy (advisor tid) task.retry_count (getMaxRetries s.context)
        if decision.action = "retry" then
          let task' := { task with
            retry_count := task.retry_count + 1
            status := TaskStatus.retrying
            error := none }
          { s with
            tasks := insertA s.tasks tid task'
            failed_tasks := s.failed_tasks.filter (fun t => t ≠ tid)
            next_tasks := [tid]
            current_task := some tid }
        else if decision.action = "skip" then
          let task' := { task with status := TaskStatus.skipped }
          { s with
            tasks := insertA s.tasks tid task'
            failed_tasks := s.failed_tasks.filter (fun t => t ≠ tid) }
        else
          { s with context :=
              { s.context with status := "failed", completed_at := some now } }

/-- `_complete_node` from `core/engine.py`: the sequential status
computation (`"completed"`, overridden by `"completed_with_errors"` when
`failed_tasks` is non-empty, overridden by `"failed"` when the context was
already force-failed), stamping `completed_at`. -/
def completeNode (now : Nat) (s : WorkflowState) : WorkflowState :=
  let status1 := "completed"
  let status2 := if 0 < s.failed_tasks.length then "completed_with_errors" else status1
  let status3 := if s.context.status = "failed" then "failed" else status2
  { s with context := { s.context with status := status3, completed_at := some now } }

/-- States reachable by the driver: the entry node `plan` applied once to a
fresh initial state (as wired by `_build_graph`), followed by any number of
loop steps (`decide`, `execute`, `handle_failure`, `complete`), each step
quantified over every possible outcome of its external collaborator.  This
over-approximates the routing of `_should_continue`, so invariants proved
over it hold a fortiori on the actual control flow. -/
inductive Reachable : WorkflowState → Prop where
  | planned (workflow_id goal : String) (plannerResult : Except String (List PlanTask))
      (t0 t1 : Nat) :
      Reachable (planNode plannerResult t1 (createInitialState workflow_id goal t0))
  | executed {s : WorkflowState} (h : Reachable s) (res : ExecResult) (now : Nat) :
      Reachable (executeNode res now s)
  | decided {s : WorkflowState} (h : Reachable s) :
      Reachable (decideNode s)
  | handled {s : WorkflowState} (h : Reachable s) (advisor : String → Option Decision)
      (settings : Settings) (now : Nat) :
      Reachable (handleFailureNode advisor settings now s)
  | finished {s : WorkflowState} (h : Reachable s) (now : Nat) :
      Reachable (completeNode now s)

/-- The driver invariant: the bookkeeping lists are mutually consistent with
the task map (the C2 conditions), every id in `failed_tasks` names a task
whose status is `failed`, and a task's `error` field is populated exactly for
`Failed` and `Skipped` tasks. -/
structure Inv (s : WorkflowState) : Prop where
  disj : ∀ id ∈ s.completed_tasks, id ∉ s.failed_tasks
  nodupCompleted : s.completed_tasks.Nodup
  nodupFailed : s.failed_tasks.Nodup
  completedKeys : ∀ id ∈ s.completed_tasks, id ∈ keysA s.tasks
  failedKeys : ∀ id ∈ s.failed_tasks, id ∈ keysA s.tasks
  nextOk : ∀ id ∈ s.next_tasks,
    id ∈ keysA s.tasks ∧ id ∉ s.completed_tasks ∧ id ∉ s.failed_tasks
  failedStatus : ∀ id ∈ s.failed_tasks,
    ∃ t, lookupA s.tasks id = some t ∧ t.status = TaskStatus.failed
  errorIff : ∀ id t, lookupA s.tasks id = some t →
    (t.error ≠ none ↔ (t.status = TaskStatus.failed ∨ t.status = TaskStatus.skipped))

/-- Result of `ActionExecutor.execute` (`core/executor.py`): a dict with
`status` `"success"` or `"error"`; the payload is abstracted to `String`. -/
inductive ActionResult where
  | success (data : String)
  | error (msg : String)
deriving DecidableEq, Repr

/-- The five action tags dispatched by `ActionExecutor.execute`. -/
def knownActionTypes : List String :=
  ["api_call", "db_query", "file_operation", "transform_data", "wait"]

/-- `ActionExecutor.execute` from `core/executor.py`.  `handler` is the I/O
oracle for the five per-type handlers (`Except.error` models a raised
exception).  The whole dispatch is wrapped in try/except, so the function is
total: every exception, including the `ValueError` raised for an unknown
`action_type`, is converted to a `status="error"` result whose message is
the exception text. -/
def executeAction (handler : String → List (String × String) → Except String String)
    (action_type : String) (config : List (String × String)) : ActionResult :=
  let attempt : Except String String :=
    if action_type = "api_call" then handler "api_call" config
    else if action_type = "db_query" then handler "db_query" config
    else if action_type = "file_operation" then handler "file_operation" config
    else if action_type = "transform_data" then handler "transform_data" config
    else if action_type = "wait" then handler "wait" config
    else Except.error ("Unknown action type: " ++ action_type)
  match attempt with
  | Except.ok data => ActionResult.success data
  | Except.error e => ActionResult.error e

/-- The status of a task id in a state, `none` when the id is unknown. -/
def taskStatusOf (s : WorkflowState) (id : String) : Option TaskStatus :=
  (lookupA s.tasks id).map Task.status

/-- Advisor decision "retry". -/
def retryDecision : Decision := { action := "retry", reason := "transient error" }

/-- Advisor decision "skip". -/
def skipDecision : Decision := { action := "skip", reason := "not critical" }

/-- An advisor oracle that always answers `retry`. -/
def advRetry : String → Option Decision := fun _ => some retryDecision

/-- An advisor oracle that always answers `skip`. -/
def advSkip : String → Option Decision := fun _ => some skipDecision

/-- A dependency-free task descriptor used in the concrete traces. -/
def descT : PlanTask :=
  { task_id := "T", name := "T", description := "", action_type := "wait",
    action_config := [], dependencies := [] }

/-- Trace: fresh state. -/
def kState0 : WorkflowState := createInitialState "wf" "demo goal" 0

/-- Trace: after `plan` with the single task `T`. -/
def kState1 : WorkflowState := planNode (Except.ok [descT]) 1 kState0

/-- Trace: after `decide` (`next_tasks = [T]`). -/
def kState2 : WorkflowState := decideNode kState1

/-- Trace: after `execute` fails on `T`. -/
def kState3 : WorkflowState := executeNode (ExecResult.failure "boom") 2 kState2

/-- Trace: after `decide` (`next_tasks = []`, `T` failed). -/
def kState4 : WorkflowState := decideNode kState3

/-- Trace: after `handle_failure` with advisor decision `skip`: `T` has
status `Skipped` and is removed from `failed_tasks`. -/
def kState5 : WorkflowState := handleFailureNode advSkip defaultSettings 3 kState4

/-- Trace: after `handle_failure` with advisor decision `retry` instead:
`T` has status `Retrying`, `retry_count = 1`, `error = none`. -/
def rState5 : WorkflowState := handleFailureNode advRetry defaultSettings 3 kState4

/-- The record for task `T` after its dispatch failed at time 2. -/
def failedTaskT : Task :=
  { task_id := "T", name := "T", description := "", action_type := "wait",
    action_config := [], status := TaskStatus.failed, dependencies := [],
    retry_count := 0, error := some "boom", result := none,
    started_at := some 2, completed_at := some 2 }

/-- The record for task `T` after the `skip` decision. -/
def skippedTaskT : Task := { failedTaskT with status := TaskStatus.skipped }

/-- The record for task `T` after the `retry` decision. -/
def retryingTaskT : Task :=
  { failedTaskT with status := TaskStatus.retrying, retry_count := 1, error := none }

/-- Scenario descriptor `A` (no dependencies). -/
def descA : PlanTask :=
  { task_id := "A", name := "A", description := "", action_type := "wait",
    action_config := [], dependencies := [] }

/-- Scenario descriptor `B` (depends on `A`). -/
def descB : PlanTask :=
  { task_id := "B", name := "B", description := "", action_type := "wait",
    action_config := [], dependencies := ["A"] }

/-- Scenario descriptor `C` (depends on `A` and `B`). -/
def descC : PlanTask :=
  { task_id := "C", name := "C", description := "", action_type := "wait",
    action_config := [], dependencies := ["A", "B"] }

/-- Scenario trace: after `plan` with `A`, `B`, `C`. -/
def abc0 : WorkflowState :=
  planNode (Except.ok [descA, descB, descC]) 1 (createInitialState "wf" "abc" 0)

/-- Scenario trace: `decide` (ready set `{A}`). -/
def abc1 : WorkflowState := decideNode abc0

/-- Scenario trace: `A` completes. -/
def abc2 : WorkflowState := executeNode (ExecResult.success "ra") 2 abc1

/-- Scenario trace: `decide` (ready set `{B}`). -/
def abc3 : WorkflowState := decideNode abc2

/-- Scenario trace: `B` completes. -/
def abc4 : WorkflowState := executeNode (ExecResult.success "rb") 3 abc3

/-- Scenario trace: `decide` (ready set `{C}`). -/
def abc5 : WorkflowState := decideNode abc4

/-- Scenario trace: `C` completes. -/
def abc6 : WorkflowState := executeNode (ExecResult.success "rc") 4 abc5

/-- Scenario trace: `decide` (ready set empty). -/
def abc7 : WorkflowState := decideNode abc6

/-- Scenario trace: `complete`. -/
def abc8 : WorkflowState := completeNode 5 abc7

/-- Descriptor `t1` (no dependencies), fails once in the mixed trace. -/
def descT1 : PlanTask :=
  { task_id := "t1", name := "t1", description := "", action_type := "wait",
    action_config := [], dependencies := [] }

/-- Descriptor `t2` (no dependencies), exhausts its retries in the mixed trace. -/
def descT2 : PlanTask :=
  { task_id := "t2", name := "t2", description := "", action_type := "wait",
    action_config := [], dependencies := [] }

/-- Mixed trace: plan `t2` then `t1`. -/
def c1m0 : WorkflowState :=
  planNode (Except.ok [descT2, descT1]) 1 (createInitialState "wf" "mixed" 0)

/-- Mixed trace: `t2` fails (retry 0). -/
def c1m1 : WorkflowState := executeNode (ExecResult.failure "b1") 2 c1m0

/-- Mixed trace: advisor retries `t2` (retry 1). -/
def c1m2 : WorkflowState := handleFailureNode advRetry defaultSettings 3 c1m1

/-- Mixed trace: `t2` fails again. -/
def c1m3 : WorkflowState := executeNode (ExecResult.failure "b2") 4 c1m2

/-- Mixed trace: advisor retries `t2` (retry 2). -/
def c1m4 : WorkflowState := handleFailureNode advRetry defaultSettings 5 c1m3

/-- Mixed trace: `t2` fails again. -/
def c1m5 : WorkflowState := executeNode (ExecResult.failure "b3") 6 c1m4

/-- Mixed trace: advisor retries `t2` (retry 3). -/
def c1m6 : WorkflowState := handleFailureNode advRetry defaultSettings 7 c1m5

/-- Mixed trace: `t2` fails with its retry budget exhausted
(`retry_count = 3 = max_retries`). -/
def c1m7 : WorkflowState := executeNode (ExecResult.failure "b4") 8 c1m6

/-- Mixed trace: `decide` makes `t1` ready. -/
def c1m8 : WorkflowState := decideNode c1m7

/-- Mixed trace: `t1` fails (retry 0); `failed_tasks = [t2, t1]` with `t2`
at the retry ceiling and `t1` with full budget. -/
def c1m9 : WorkflowState := executeNode (ExecResult.failure "b5") 9 c1m8

/-- The record for `t2` after its fourth failure. -/
def taskT2Final : Task :=
  { task_id := "t2", name := "t2", description := "", action_type := "wait",
    action_config := [], status := TaskStatus.failed, dependencies := [],
    retry_count := 3, error := some "b4", result := none,
    started_at := some 8, completed_at := some 8 }

/-- A descriptor blocked forever: its dependency `D` names no existing task. -/
def descBlocked : PlanTask :=
  { task_id := "C", name := "C", description := "", action_type := "wait",
    action_config := [], dependencies := ["D"] }

/-- Stalled trace: after `plan` with the blocked descriptor. -/
def c5m0 : WorkflowState :=
  planNode (Except.ok [descBlocked]) 1 (createInitialState "wf" "stalled" 0)

/-- Stalled trace: `decide` returns the empty ready set although `C` is
neither completed nor failed. -/
def c5m1 : WorkflowState := decideNode c5m0

theorem lookupA_insertA {α : Type} (l : List (String × α)) (k key : String) (v : α) :
    lookupA (insertA l k v) key = if k = key then some v else lookupA l key := by
  induction l with
  | nil => simp [insertA, lookupA]
  | cons kv rest ih =>
    obtain ⟨k0, v0⟩ := kv
    by_cases h0 : k0 = k
    · subst h0
      by_cases h1 : k0 = key
      · subst h1; simp [insertA, lookupA]
      · simp [insertA, lookupA, h1]
    · by_cases h1 : k0 = key
      · subst h1
        have : ¬ k = k0 := fun h => h0 h.symm
        simp [insertA, lookupA, h0, this]
      · simp [insertA, lookupA, h0, h1, ih]

theorem mem_keysA_insertA {α : Type} (l : List (String × α)) (k key : String) (v : α) :
    key ∈ keysA (insertA l k v) ↔ key ∈ keysA l ∨ key = k := by
  induction l with
  | nil => simp [insertA, keysA]
  | cons kv rest ih =>
    obtain ⟨k0, v0⟩ := kv
    by_cases h0 : k0 = k
    · subst h0
      simp [insertA, keysA]
      tauto
    · simp only [keysA, List.map_cons, List.mem_cons] at ih ⊢
      simp only [insertA, if_neg h0, List.map_cons, List.mem_cons]
      rw [ih]
      tauto

theorem mem_keysA_of_lookupA {α : Type} (l : List (String × α)) (key : String) (v : α)
    (h : lookupA l key = some v) : key ∈ keysA l := by
  induction l with
  | nil => simp [lookupA] at h
  | cons kv rest ih =>
    obtain ⟨k0, v0⟩ := kv
    by_cases h0 : k0 = key
    · subst h0; simp [keysA]
    · simp only [lookupA, if_neg h0] at h
      simp only [keysA, List.map_cons, List.mem_cons]
      exact Or.inr (ih h)

theorem lookupA_isSome_of_mem_keysA {α : Type} (l : List (String × α)) (key : String)
    (h : key ∈ keysA l) : ∃ v, lookupA l key = some v := by
  induction l with
  | nil => simp [keysA] at h
  | cons kv rest ih =>
    obtain ⟨k0, v0⟩ := kv
    by_cases h0 : k0 = key
    · subst h0; exact ⟨v0, by simp [lookupA]⟩
    · simp only [keysA, List.map_cons, List.mem_cons] at h
      rcases h with h | h
      · exact absurd h.symm h0
      · obtain ⟨v, hv⟩ := ih h
        exact ⟨v, by simp [lookupA, h0, hv]⟩

theorem nodup_snoc {α : Type} (l : List α) (a : α) :
    (l ++ [a]).Nodup ↔ l.Nodup ∧ a ∉ l := by
  simp [List.nodup_append]

theorem lookupA_buildTaskDict_prop (ts : List PlanTask) (k : String) (t : Task)
    (h : lookupA (buildTaskDict ts) k = some t) :
    t.status = TaskStatus.pending ∧ t.error = none := by
  have main : ∀ (l : List PlanTask) (acc : List (String × Task)),
      (∀ k t, lookupA acc k = some t → t.status = TaskStatus.pending ∧ t.error = none) →
      ∀ k t,
        lookupA (l.foldl (fun a td => insertA a td.task_id (planTaskToTask td)) acc) k
          = some t →
        t.status = TaskStatus.pending ∧ t.error = none := by
    intro l
    induction l with
    | nil => intro acc hacc k t h; exact hacc k t h
    | cons td rest ih =>
      intro acc hacc k t h
      refine ih _ ?_ k t h
      intro k' t' h'
      rw [lookupA_insertA] at h'
      by_cases he : td.task_id = k'
      · rw [if_pos he] at h'
        cases h'
        exact ⟨rfl, rfl⟩
      · rw [if_neg he] at h'
        exact hacc k' t' h'
  exact main ts [] (by intro k t h; simp [lookupA] at h) k t h

theorem keysA_foldl_insert_mono (l : List PlanTask) (acc : List (String × Task))
    (k : String) (h : k ∈ keysA acc) :
    k ∈ keysA (l.foldl (fun a td => insertA a td.task_id (planTaskToTask td)) acc) := by
  induction l generalizing acc with
  | nil => exact h
  | cons td rest ih =>
    exact ih _ ((mem_keysA_insertA _ _ _ _).mpr (Or.inl h))

theorem mem_keysA_buildTaskDict (ts : List PlanTask) (td : PlanTask) (h : td ∈ ts) :
    td.task_id ∈ keysA (buildTaskDict ts) := by
  have main : ∀ (l : List PlanTask) (acc : List (String × Task)), td ∈ l →
      td.task_id ∈ keysA (l.foldl (fun a td => insertA a td.task_id (planTaskToTask td)) acc) := by
    intro l
    induction l with
    | nil => intro acc h; simp at h
    | cons hd rest ih =>
      intro acc h
      rcases List.mem_cons.mp h with h | h
      · subst h
        exact keysA_foldl_insert_mono rest _ _ ((mem_keysA_insertA _ _ _ _).mpr (Or.inr rfl))
      · exact ih _ h
  exact main ts [] h

theorem inv_plan (workflow_id goal : String) (pr : Except String (List PlanTask))
    (t0 t1 : Nat) :
    Inv (planNode pr t1 (createInitialState workflow_id goal t0)) := by
  cases pr with
  | error e =>
    refine ⟨?_, ?_, ?_, ?_, ?_, ?_, ?_, ?_⟩ <;>
      simp [planNode, createInitialState, lookupA]
  | ok ts =>
    refine ⟨?_, ?_, ?_, ?_, ?_, ?_, ?_, ?_⟩
    · simp [planNode, createInitialState]
    · simp [planNode, createInitialState]
    · simp [planNode, createInitialState]
    · simp [planNode, createInitialState]
    · simp [planNode, createInitialState]
    · intro id hid
      simp only [planNode, createInitialState] at hid ⊢
      simp only [List.mem_map, List.mem_filter] at hid
      obtain ⟨td, ⟨htd, _⟩, rfl⟩ := hid
      refine ⟨mem_keysA_buildTaskDict ts td htd, ?_, ?_⟩ <;> simp
    · simp [planNode, createInitialState]
    · intro id t hlook
      simp only [planNode, createInitialState] at hlook ⊢
      obtain ⟨hst, herr⟩ := lookupA_buildTaskDict_prop ts id t hlook
      rw [hst, herr]
      simp

theorem inv_execute (res : ExecResult) (now : Nat) (s : WorkflowState) (hs : Inv s) :
    Inv (executeNode res now s) := by
  cases hn : s.next_tasks with
  | nil =>
    have heq : executeNode res now s = s := by simp [executeNode, hn]
    rwa [heq]
  | cons current rest =>
    have hcur : current ∈ s.next_tasks := by rw [hn]; exact List.mem_cons_self _ _
    obtain ⟨hkeys, hnc, hnf⟩ := hs.nextOk current hcur
    obtain ⟨task, hlook⟩ := lookupA_isSome_of_mem_keysA s.tasks current hkeys
    cases res with
    | success data =>
      simp only [executeNode, hn, hlook]
      refine ⟨?_, ?_, ?_, ?_, ?_, ?_, ?_, ?_⟩
      · intro id hid
        rcases List.mem_append.mp hid with h | h
        · exact hs.disj id h
        · rw [List.mem_singleton] at h
          subst h
          exact hnf
      · exact (nodup_snoc _ _).mpr ⟨hs.nodupCompleted, hnc⟩
      · exact hs.nodupFailed
      · intro id hid
        rcases List.mem_append.mp hid with h | h
        · exact (mem_keysA_insertA _ _ _ _).mpr (Or.inl (hs.completedKeys id h))
        · rw [List.mem_singleton] at h
          subst h
          exact (mem_keysA_insertA _ _ _ _).mpr (Or.inr rfl)
      · intro id hid
        exact (mem_keysA_insertA _ _ _ _).mpr (Or.inl (hs.failedKeys id hid))
      · intro id hid
        rw [List.mem_filter] at hid
        obtain ⟨hmem, hpred⟩ := hid
        have hne : id ≠ current := by simpa using hpred
        have hmem' : id ∈ s.next_tasks := by rw [hn]; exact hmem
        obtain ⟨hk, hc, hf⟩ := hs.nextOk id hmem'
        refine ⟨(mem_keysA_insertA _ _ _ _).mpr (Or.inl hk), ?_, hf⟩
        intro hmemc
        rcases List.mem_append.mp hmemc with h | h
        · exact hc h
        · rw [List.mem_singleton] at h
          exact hne h
      · intro id hid
        obtain ⟨t, ht, hstat⟩ := hs.failedStatus id hid
        have hne : current ≠ id := by
          intro h
          subst h
          exact hnf hid
        refine ⟨t, ?_, hstat⟩
        rw [lookupA_insertA, if_neg hne]
        exact ht
      · intro id t hl
        rw [lookupA_insertA] at hl
        by_cases he : current = id
        · rw [if_pos he] at hl
          cases hl
          simp
        · rw [if_neg he] at hl
          exact hs.errorIff id t hl
    | failure err =>
      simp only [executeNode, hn, hlook]
      refine ⟨?_, ?_, ?_, ?_, ?_, ?_, ?_, ?_⟩
      · intro id hid hmemf
        rcases List.mem_append.mp hmemf with h | h
        · exact hs.disj id hid h
        · rw [List.mem_singleton] at h
          subst h
          exact hnc hid
      · exact hs.nodupCompleted
      · exact (nodup_snoc _ _).mpr ⟨hs.nodupFailed, hnf⟩
      · intro id hid
        exact (mem_keysA_insertA _ _ _ _).mpr (Or.inl (hs.completedKeys id hid))
      · intro id hid
        rcases List.mem_append.mp hid with h | h
        · exact (mem_keysA_insertA _ _ _ _).mpr (Or.inl (hs.failedKeys id h))
        · rw [List.mem_singleton] at h
          subst h
          exact (mem_keysA_insertA _ _ _ _).mpr (Or.inr rfl)
      · intro id hid
        rw [List.mem_filter] at hid
        obtain ⟨hmem, hpred⟩ := hid
        have hne : id ≠ current := by simpa using hpred
        have hmem' : id ∈ s.next_tasks := by rw [hn]; exact hmem
        obtain ⟨hk, hc, hf⟩ := hs.nextOk id hmem'
        refine ⟨(mem_keysA_insertA _ _ _ _).mpr (Or.inl hk), hc, ?_⟩
        intro hmemf
        rcases List.mem_append.mp hmemf with h | h
        · exact hf h
        · rw [List.mem_singleton] at h
          exact hne h
      · intro id hid
        rcases List.mem_append.mp hid with h | h
        · obtain ⟨t, ht, hstat⟩ := hs.failedStatus id h
          have hne : current ≠ id := by
            intro he
            subst he
            exact hnf h
          refine ⟨t, ?_, hstat⟩
          rw [lookupA_insertA, if_neg hne]
          exact ht
        · rw [List.mem_singleton] at h
          subst h
          have hl : lookupA (insertA s.tasks id { task with status := TaskStatus.failed, error := some err, started_at := some now, completed_at := some now }) id = some { task with status := TaskStatus.failed, error := some err, started_at := some now, completed_at := some now } := by
            rw [lookupA_insertA, if_pos rfl]
          exact ⟨_, hl, rfl⟩
      · intro id t hl
        rw [lookupA_insertA] at hl
        by_cases he : current = id
        · rw [if_pos he] at hl
          cases hl
          simp
        · rw [if_neg he] at hl
          exact hs.errorIff id t hl

theorem mem_availableTasks (s : WorkflowState) (id : String) :
    id ∈ availableTasks s ↔
      id ∈ keysA s.tasks ∧ id ∉ s.completed_tasks ∧ id ∉ s.failed_tasks ∧
        ∀ d ∈ taskDeps s id, d ∈ s.completed_tasks := by
  simp [availableTasks, depsSatisfied, List.mem_filter, List.all_eq_true, and_assoc]

theorem decideNextTasks_available (s : WorkflowState) :
    decideNextTasks s (availableTasks s) = availableTasks s := by
  unfold decideNextTasks
  by_cases h : availableTasks s = []
  · rw [if_pos h, h]
  · rw [if_neg h]
    apply List.filter_eq_self.mpr
    intro a ha
    rw [mem_availableTasks] at ha
    obtain ⟨_, hc, hf, hd⟩ := ha
    simp [depsSatisfied, List.all_eq_true, hc, hf]
    exact hd

theorem decideNode_eq (s : WorkflowState) :
    decideNode s = { s with next_tasks := availableTasks s } := by
  unfold decideNode
  by_cases h : availableTasks s = []
  · rw [if_pos h, h]
  · rw [if_neg h, decideNextTasks_available]

theorem inv_decide (s : WorkflowState) (hs : Inv s) : Inv (decideNode s) := by
  rw [decideNode_eq]
  refine ⟨hs.disj, hs.nodupCompleted, hs.nodupFailed, hs.completedKeys, hs.failedKeys,
    ?_, hs.failedStatus, hs.errorIff⟩
  intro id hid
  rw [show ({ s with next_tasks := availableTasks s } : WorkflowState).next_tasks
      = availableTasks s from rfl, mem_availableTasks] at hid
  exact ⟨hid.1, hid.2.1, hid.2.2.1⟩

theorem findRetryTask_eq_some (s : WorkflowState) (settings : Settings) (tid : String)
    (h : findRetryTask s settings = some tid) :
    tid ∈ s.failed_tasks ∧
      ∃ t, lookupA s.tasks tid = some t ∧ t.retry_count < settings.max_retries := by
  unfold findRetryTask at h
  have hmem := List.mem_of_find?_eq_some h
  have hpred := List.find?_some h
  refine ⟨hmem, ?_⟩
  cases hl : lookupA s.tasks tid with
  | none => rw [hl] at hpred; simp at hpred
  | some t =>
    rw [hl] at hpred
    simp only [decide_eq_true_eq] at hpred
    exact ⟨t, rfl, hpred⟩

theorem inv_handle (advisor : String → Option Decision) (settings : Settings) (now : Nat)
    (s : WorkflowState) (hs : Inv s) : Inv (handleFailureNode advisor settings now s) := by
  unfold handleFailureNode
  by_cases hf : s.failed_tasks = []
  · rw [if_pos hf]
    exact hs
  · rw [if_neg hf]
    cases hfind : findRetryTask s settings with
    | none =>
      exact ⟨hs.disj, hs.nodupCompleted, hs.nodupFailed, hs.completedKeys, hs.failedKeys,
        hs.nextOk, hs.failedStatus, hs.errorIff⟩
    | some tid =>
      obtain ⟨hmem, t0, hl0, hrc⟩ := findRetryTask_eq_some s settings tid hfind
      simp only [hl0]
      have htc : tid ∉ s.completed_tasks := by
        intro hc
        exact hs.disj tid hc hmem
      have hstat0 : t0.status = TaskStatus.failed := by
        obtain ⟨t1, hl1, hstat1⟩ := hs.failedStatus tid hmem
        rw [hl0] at hl1
        cases hl1
        exact hstat1
      have herr0 : t0.error ≠ none :=
        (hs.errorIff tid t0 hl0).mpr (Or.inl hstat0)
      by_cases hact :
          (handleFailurePolicy (advisor tid) t0.retry_count (getMaxRetries s.context)).action
            = "retry"
      · rw [if_pos hact]
        refine ⟨?_, hs.nodupCompleted, hs.nodupFailed.filter _, ?_, ?_, ?_, ?_, ?_⟩
        · intro id hid hmemf
          exact hs.disj id hid (List.mem_of_mem_filter hmemf)
        · intro id hid
          exact (mem_keysA_insertA _ _ _ _).mpr (Or.inl (hs.completedKeys id hid))
        · intro id hid
          exact (mem_keysA_insertA _ _ _ _).mpr
            (Or.inl (hs.failedKeys id (List.mem_of_mem_filter hid)))
        · intro id hid
          rw [List.mem_singleton] at hid
          subst hid
          refine ⟨(mem_keysA_insertA _ _ _ _).mpr (Or.inr rfl), htc, ?_⟩
          intro hmemf
          rw [List.mem_filter] at hmemf
          simp at hmemf
        · intro id hid
          rw [List.mem_filter] at hid
          obtain ⟨hidf, hpred⟩ := hid
          have hne : id ≠ tid := by simpa using hpred
          obtain ⟨t, hl, hstat⟩ := hs.failedStatus id hidf
          refine ⟨t, ?_, hstat⟩
          rw [lookupA_insertA, if_neg (fun h => hne h.symm)]
          exact hl
        · intro id t hl
          rw [lookupA_insertA] at hl
          by_cases he : tid = id
          · rw [if_pos he] at hl
            cases hl
            simp
          · rw [if_neg he] at hl
            exact hs.errorIff id t hl
      · rw [if_neg hact]
        by_cases hskip :
            (handleFailurePolicy (advisor tid) t0.retry_count (getMaxRetries s.context)).action
              = "skip"
        · rw [if_pos hskip]
          refine ⟨?_, hs.nodupCompleted, hs.nodupFailed.filter _, ?_, ?_, ?_, ?_, ?_⟩
          · intro id hid hmemf
            exact hs.disj id hid (List.mem_of_mem_filter hmemf)
          · intro id hid
            exact (mem_keysA_insertA _ _ _ _).mpr (Or.inl (hs.completedKeys id hid))
          · intro id hid
            exact (mem_keysA_insertA _ _ _ _).mpr
              (Or.inl (hs.failedKeys id (List.mem_of_mem_filter hid)))
          · intro id hid
            obtain ⟨hk, hc, hfid⟩ := hs.nextOk id hid
            refine ⟨(mem_keysA_insertA _ _ _ _).mpr (Or.inl hk), hc, ?_⟩
            intro hmemf
            exact hfid (List.mem_of_mem_filter hmemf)
          · intro id hid
            rw [List.mem_filter] at hid
            obtain ⟨hidf, hpred⟩ := hid
            have hne : id ≠ tid := by simpa using hpred
            obtain ⟨t, hl, hstat⟩ := hs.failedStatus id hidf
            refine ⟨t, ?_, hstat⟩
            rw [lookupA_insertA, if_neg (fun h => hne h.symm)]
            exact hl
          · intro id t hl
            rw [lookupA_insertA] at hl
            by_cases he : tid = id
            · rw [if_pos he] at hl
              cases hl
              simpa using herr0
            · rw [if_neg he] at hl
              exact hs.errorIff id t hl
        · rw [if_neg hskip]
          exact ⟨hs.disj, hs.nodupCompleted, hs.nodupFailed, hs.completedKeys, hs.failedKeys,
            hs.nextOk, hs.failedStatus, hs.errorIff⟩

theorem inv_complete (now : Nat) (s : WorkflowState) (hs : Inv s) :
    Inv (completeNode now s) :=
  ⟨hs.disj, hs.nodupCompleted, hs.nodupFailed, hs.completedKeys, hs.failedKeys,
    hs.nextOk, hs.failedStatus, hs.errorIff⟩

/-- Every reachable state satisfies the driver invariant. -/
theorem reachable_inv {s : WorkflowState} (h : Reachable s) : Inv s := by
  induction h with
  | planned workflow_id goal pr t0 t1 => exact inv_plan workflow_id goal pr t0 t1
  | executed _ res now ih => exact inv_execute res now _ ih
  | decided _ ih => exact inv_decide _ ih
  | handled _ advisor settings now ih => exact inv_handle advisor settings now _ ih
  | finished _ now ih => exact inv_complete now _ ih

theorem kState5_reachable : Reachable kState5 :=
  Reachable.handled (Reachable.decided (Reachable.executed (Reachable.decided
    (Reachable.planned "wf" "demo goal" (Except.ok [descT]) 0 1))
    (ExecResult.failure "boom") 2)) advSkip defaultSettings 3

theorem rState5_reachable : Reachable rState5 :=
  Reachable.handled (Reachable.decided (Reachable.executed (Reachable.decided
    (Reachable.planned "wf" "demo goal" (Except.ok [descT]) 0 1))
    (ExecResult.failure "boom") 2)) advRetry defaultSettings 3

theorem abc4_reachable : Reachable abc4 :=
  Reachable.executed (Reachable.decided (Reachable.executed (Reachable.decided
    (Reachable.planned "wf" "abc" (Except.ok [descA, descB, descC]) 0 1))
    (ExecResult.success "ra") 2)) (ExecResult.success "rb") 3

theorem c1m9_reachable : Reachable c1m9 :=
  Reachable.executed (Reachable.decided (Reachable.executed (Reachable.handled
    (Reachable.executed (Reachable.handled (Reachable.executed (Reachable.handled
      (Reachable.executed
        (Reachable.planned "wf" "mixed" (Except.ok [descT2, descT1]) 0 1)
        (ExecResult.failure "b1") 2)
      advRetry defaultSettings 3) (ExecResult.failure "b2") 4)
      advRetry defaultSettings 5) (ExecResult.failure "b3") 6)
      advRetry defaultSettings 7) (ExecResult.failure "b4") 8))
    (ExecResult.failure "b5") 9

/-- C2: in every state reachable by the driver's steps, `completed_tasks`
and `failed_tasks` are disjoint, each is duplicate-free, every id in either
is a key of the `tasks` map, and every id in `next_tasks` is a key of
`tasks` that is in neither `completed_tasks` nor `failed_tasks`. -/
theorem c2_state_invariants (s : WorkflowState) (h : Reachable s) :
    (∀ id ∈ s.completed_tasks, id ∉ s.failed_tasks) ∧
    s.completed_tasks.Nodup ∧
    s.failed_tasks.Nodup ∧
    (∀ id ∈ s.completed_tasks, id ∈ keysA s.tasks) ∧
    (∀ id ∈ s.failed_tasks, id ∈ keysA s.tasks) ∧
    (∀ id ∈ s.next_tasks,
        id ∈ keysA s.tasks ∧ id ∉ s.completed_tasks ∧ id ∉ s.failed_tasks) :=
  ⟨(reachable_inv h).disj, (reachable_inv h).nodupCompleted,
   (reachable_inv h).nodupFailed, (reachable_inv h).completedKeys,
   (reachable_inv h).failedKeys, (reachable_inv h).nextOk⟩

/-- C2 witness: the invariants instantiated at the concrete reachable state
`abc4` (tasks `A`, `B` completed, `C` still pending). -/
theorem c2_state_invariants_witness :
    (∀ id ∈ abc4.completed_tasks, id ∉ abc4.failed_tasks) ∧
    abc4.completed_tasks.Nodup ∧
    abc4.failed_tasks.Nodup ∧
    (∀ id ∈ abc4.completed_tasks, id ∈ keysA abc4.tasks) ∧
    (∀ id ∈ abc4.failed_tasks, id ∈ keysA abc4.tasks) ∧
    (∀ id ∈ abc4.next_tasks,
        id ∈ keysA abc4.tasks ∧ id ∉ abc4.completed_tasks ∧ id ∉ abc4.failed_tasks) :=
  c2_state_invariants abc4 abc4_reachable

/-- C3: the ready set computed by the decide step contains a task id iff the
id is a key of `tasks` that is not in `completed_tasks`, not in
`failed_tasks`, and all of whose dependencies are in `completed_tasks`;
and the A/B/C scenario runs ready sets `[A]`, `[B]`, `[C]`, `[]`, after
which the router chooses `complete` and the final status is `completed`. -/
theorem c3_ready_characterization :
    (∀ (s : WorkflowState) (id : String),
        id ∈ (decideNode s).next_tasks ↔
          ∃ t, lookupA s.tasks id = some t ∧ id ∉ s.completed_tasks ∧
            id ∉ s.failed_tasks ∧ ∀ d ∈ t.dependencies, d ∈ s.completed_tasks) ∧
    (decideNode abc0).next_tasks = ["A"] ∧
    abc2.completed_tasks = ["A"] ∧
    (decideNode abc2).next_tasks = ["B"] ∧
    abc4.completed_tasks = ["A", "B"] ∧
    (decideNode abc4).next_tasks = ["C"] ∧
    abc6.completed_tasks = ["A", "B", "C"] ∧
    (decideNode abc6).next_tasks = [] ∧
    shouldContinue defaultSettings abc7 = "complete" ∧
    abc8.context.status = "completed" := by
  constructor
  · intro s id
    rw [decideNode_eq]
    show id ∈ availableTasks s ↔ _
    rw [mem_availableTasks]
    constructor
    · rintro ⟨hk, hc, hf, hd⟩
      obtain ⟨t, hl⟩ := lookupA_isSome_of_mem_keysA s.tasks id hk
      have hdeps : taskDeps s id = t.dependencies := by
        unfold taskDeps
        rw [hl]
      refine ⟨t, hl, hc, hf, ?_⟩
      intro d hdep
      exact hd d (by rw [hdeps]; exact hdep)
    · rintro ⟨t, hl, hc, hf, hd⟩
      have hdeps : taskDeps s id = t.dependencies := by
        unfold taskDeps
        rw [hl]
      refine ⟨mem_keysA_of_lookupA _ _ _ hl, hc, hf, ?_⟩
      intro d hdep
      exact hd d (by rw [hdeps] at hdep; exact hdep)
  · refine ⟨?_, ?_, ?_, ?_, ?_, ?_, ?_, ?_, ?_⟩ <;> decide

/-- C1 counterexample: the reachable state `c1m9` contains the failed task
`t2` whose `retry_count` (3) has reached `max_retries` (3, both the settings
ceiling and the metadata default), yet the failure-handling step applied to
this state does consult the Failure Advisor (its result depends on the
advisor's answer, because it handles the other failed task `t1`, which still
has budget) and leaves the workflow status `"running"`, not `"failed"`. -/
theorem c1_counterexample :
    Reachable c1m9 ∧
    "t2" ∈ c1m9.failed_tasks ∧
    lookupA c1m9.tasks "t2" = some taskT2Final ∧
    defaultSettings.max_retries ≤ taskT2Final.retry_count ∧
    getMaxRetries c1m9.context ≤ taskT2Final.retry_count ∧
    (handleFailureNode advRetry defaultSettings 10 c1m9).context.status = "running" ∧
    (handleFailureNode advRetry defaultSettings 10 c1m9).context.status ≠ "failed" ∧
    handleFailureNode advRetry defaultSettings 10 c1m9
      ≠ handleFailureNode advSkip defaultSettings 10 c1m9 :=
  ⟨c1m9_reachable, by decide, by decide, by decide, by decide, by decide, by decide,
   by decide⟩

/-- C1 amended: when EVERY failed task has `retry_count ≥ max_retries` (so
in particular when the only failed task is at the ceiling, as in the spec
scenario `retry_count=3`, `max_retries=3`), the failure-handling step sets
`context.status = "failed"` (stamping `completed_at`) and its result does
not depend on the Failure Advisor at all; moreover the retry/failure policy
function invoked with `retry_count ≥ max_retries` returns the
`fail_workflow` decision regardless of the advisor's answer. -/
theorem c1_amended (s : WorkflowState) (settings : Settings)
    (h1 : s.failed_tasks ≠ [])
    (h2 : ∀ id ∈ s.failed_tasks,
        ∃ t, lookupA s.tasks id = some t ∧ settings.max_retries ≤ t.retry_count) :
    (∀ (advisor : String → Option Decision) (now : Nat),
        (handleFailureNode advisor settings now s).context.status = "failed" ∧
        (handleFailureNode advisor settings now s).context.completed_at = some now) ∧
    (∀ (advisor advisor' : String → Option Decision) (now : Nat),
        handleFailureNode advisor settings now s
          = handleFailureNode advisor' settings now s) ∧
    (∀ (advisorDecision : Option Decision) (rc m : Nat), m ≤ rc →
        (handleFailurePolicy advisorDecision rc m).action = "fail_workflow") := by
  have hnone : findRetryTask s settings = none := by
    unfold findRetryTask
    apply List.find?_eq_none.mpr
    intro id hid
    obtain ⟨t, hl, hle⟩ := h2 id hid
    rw [hl]
    simp [Nat.not_lt.mpr hle]
  have hgen : ∀ (a : String → Option Decision) (now : Nat),
      handleFailureNode a settings now s
        = { s with context :=
              { s.context with status := "failed", completed_at := some now } } := by
    intro a now
    unfold handleFailureNode
    rw [if_neg h1, hnone]
  refine ⟨?_, ?_, ?_⟩
  · intro advisor now
    rw [hgen advisor now]
    exact ⟨rfl, rfl⟩
  · intro advisor advisor' now
    rw [hgen advisor now, hgen advisor' now]
  · intro advisorDecision rc m hle
    unfold handleFailurePolicy
    rw [if_pos hle]

/-- C1 witness: the amended theorem applied at the reachable state `c1m7`,
whose only failed task `t2` has `retry_count = 3 = max_retries`: the
failure-handling step force-fails the workflow and ignores the advisor. -/
theorem c1_amended_witness :
    (handleFailureNode advRetry defaultSettings 10 c1m7).context.status = "failed" ∧
    handleFailureNode advRetry defaultSettings 10 c1m7
      = handleFailureNode advSkip defaultSettings 10 c1m7 ∧
    (handleFailurePolicy (some retryDecision) 3 3).action = "fail_workflow" := by
  have h2 : ∀ id ∈ c1m7.failed_tasks,
      ∃ t, lookupA c1m7.tasks id = some t ∧
        defaultSettings.max_retries ≤ t.retry_count := by
    intro id hid
    have hfe : c1m7.failed_tasks = ["t2"] := by decide
    rw [hfe, List.mem_singleton] at hid
    subst hid
    exact ⟨taskT2Final, by decide, by decide⟩
  exact ⟨((c1_amended c1m7 defaultSettings (by decide) h2).1 advRetry 10).1,
         (c1_amended c1m7 defaultSettings (by decide) h2).2.1 advRetry advSkip 10,
         (c1_amended c1m7 defaultSettings (by decide) h2).2.2 (some retryDecision) 3 3
           (by decide)⟩

/-- C4: evaluation of the code at the failing input.  In the reachable state
`kState5` task `T` has just entered `Skipped` (and was removed from
`failed_tasks`), yet the decide step's readiness computation — which tests
only membership in `completed_tasks`/`failed_tasks`, never the `Skipped`
status — returns `T` again, the router dispatches to `execute`, and a
subsequent dispatch overwrites the `Skipped` status.  This contradicts the
documented meaning of the `skip` decision (give up on the task) and of the
terminal `Skipped` status. -/
theorem c4_skipped_reenters_ready :
    Reachable kState5 ∧
    lookupA kState5.tasks "T" = some skippedTaskT ∧
    skippedTaskT.status = TaskStatus.skipped ∧
    kState5.failed_tasks = [] ∧
    (decideNode kState5).next_tasks = ["T"] ∧
    shouldContinue defaultSettings (decideNode kState5) = "execute" ∧
    taskStatusOf (executeNode (ExecResult.success "late") 4 (decideNode kState5)) "T"
      = some TaskStatus.completed :=
  ⟨kState5_reachable, by decide, by decide, by decide, by decide, by decide, by decide⟩

/-- C5 counterexample: in the reachable state `c5m1` the only task `C` is
neither completed nor failed but blocked forever on the nonexistent
dependency `D`; the readiness computation returns the empty set, the router
goes straight to `Complete`, and no entry is ever added to the `errors` log
— the final status is even `"completed"`.  The stall is silently ignored,
refuting the claim that it is surfaced as a workflow-level error. -/
theorem c5_counterexample :
    Reachable c5m1 ∧
    "C" ∈ keysA c5m1.tasks ∧
    "C" ∉ c5m1.completed_tasks ∧
    "C" ∉ c5m1.failed_tasks ∧
    c5m1.next_tasks = [] ∧
    shouldContinue defaultSettings c5m1 = "complete" ∧
    c5m1.errors = [] ∧
    (completeNode 2 c5m1).errors = [] ∧
    (completeNode 2 c5m1).context.status = "completed" :=
  ⟨Reachable.decided (Reachable.planned "wf" "stalled" (Except.ok [descBlocked]) 0 1),
   by decide, by decide, by decide, by decide, by decide, by decide, by decide, by decide⟩

/-- C5 amended: when the readiness computation returns the empty set while
unfinished tasks remain and no task is in `failed_tasks`, the
permanently-stalled condition is NOT surfaced: the decide step and the
complete step leave the `errors` log unchanged and the router proceeds to
`Complete` as if the workflow were done. -/
theorem c5_amended (s : WorkflowState) (settings : Settings) (now : Nat)
    (havail : availableTasks s = [])
    (hfail : s.failed_tasks = [])
    (_hleft : ∃ id ∈ keysA s.tasks, id ∉ s.completed_tasks ∧ id ∉ s.failed_tasks) :
    (decideNode s).next_tasks = [] ∧
    (decideNode s).errors = s.errors ∧
    shouldContinue settings (decideNode s) = "complete" ∧
    (completeNode now (decideNode s)).errors = s.errors := by
  rw [decideNode_eq]
  refine ⟨havail, rfl, ?_, rfl⟩
  unfold shouldContinue
  simp [havail, hfail]

/-- C5 witness: the amended theorem applied at the concrete stalled state
`c5m0` (task `C` blocked on the nonexistent dependency `D`). -/
theorem c5_amended_witness :
    (decideNode c5m0).next_tasks = [] ∧
    (decideNode c5m0).errors = c5m0.errors ∧
    shouldContinue defaultSettings (decideNode c5m0) = "complete" ∧
    (completeNode 2 (decideNode c5m0)).errors = c5m0.errors :=
  c5_amended c5m0 defaultSettings 2 (by decide) (by decide)
    ⟨"C", by decide, by decide, by decide⟩

/-- C6 counterexample: in the reachable state `kState5` task `T` ended
`Skipped` (after a real dispatch failure) and the workflow was never
force-failed, yet the complete step sets the final status to `"completed"`,
not `"completed_with_errors"`: the step keys the status off the current
`failed_tasks` list, from which skipped (and successfully retried) tasks
have been removed. -/
theorem c6_counterexample :
    Reachable kState5 ∧
    taskStatusOf kState5 "T" = some TaskStatus.skipped ∧
    kState5.context.status = "running" ∧
    kState5.failed_tasks = [] ∧
    (completeNode 4 kState5).context.status = "completed" ∧
    (completeNode 4 kState5).context.status ≠ "completed_with_errors" :=
  ⟨kState5_reachable, by decide, by decide, by decide, by decide, by decide⟩

/-- C6 amended: the final status set by the complete step is `"failed"` if
the context was already force-failed when `Complete` runs,
`"completed_with_errors"` if `failed_tasks` is non-empty at that moment
(tasks still in the `Failed` state), and `"completed"` otherwise — tasks
that ended `Skipped`, or failed earlier but were retried, do not influence
it; `completed_at` is stamped with the completion time. -/
theorem c6_amended (s : WorkflowState) (now : Nat) :
    (completeNode now s).context.completed_at = some now ∧
    (completeNode now s).context.status =
      (if s.context.status = "failed" then "failed"
       else if s.failed_tasks = [] then "completed" else "completed_with_errors") := by
  unfold completeNode
  refine ⟨rfl, ?_⟩
  by_cases hf : s.context.status = "failed"
  · simp [hf]
  · cases hl : s.failed_tasks with
    | nil => simp [hf, hl]
    | cons a l => simp [hf, hl]

/-- C7: when the failure-handling step selects a failed task (the first one
with remaining settings budget), that task still has metadata budget, and
the Failure Advisor returns a `retry` decision, the step increments the
task's `retry_count` by one, clears its `error`, sets its status to
`Retrying`, removes its id from `failed_tasks`, and makes `next_tasks`
equal to `[tid]` (the dispatch queue re-entry), also recording it as the
`current_task`. -/
theorem c7_retry_effects (s : WorkflowState) (advisor : String → Option Decision)
    (settings : Settings) (now : Nat) (tid : String) (task : Task) (d : Decision)
    (hfind : findRetryTask s settings = some tid)
    (hlook : lookupA s.tasks tid = some task)
    (hbudget : task.retry_count < getMaxRetries s.context)
    (hadv : advisor tid = some d)
    (hact : d.action = "retry") :
    lookupA (handleFailureNode advisor settings now s).tasks tid =
      some { task with retry_count := task.retry_count + 1, status := TaskStatus.retrying, error := none } ∧
    (handleFailureNode advisor settings now s).failed_tasks =
      s.failed_tasks.filter (fun t => t ≠ tid) ∧
    tid ∉ (handleFailureNode advisor settings now s).failed_tasks ∧
    (handleFailureNode advisor settings now s).next_tasks = [tid] ∧
    (handleFailureNode advisor settings now s).current_task = some tid := by
  have hmem : tid ∈ s.failed_tasks := (findRetryTask_eq_some s settings tid hfind).1
  have hne : s.failed_tasks ≠ [] := List.ne_nil_of_mem hmem
  have hdec : handleFailurePolicy (advisor tid) task.retry_count (getMaxRetries s.context)
      = d := by
    unfold handleFailurePolicy
    rw [if_neg (Nat.not_le.mpr hbudget), hadv]
  have hstate : handleFailureNode advisor settings now s
      = { s with
          tasks := insertA s.tasks tid { task with retry_count := task.retry_count + 1, status := TaskStatus.retrying, error := none }
          failed_tasks := s.failed_tasks.filter (fun t => t ≠ tid)
          next_tasks := [tid]
          current_task := some tid } := by
    unfold handleFailureNode
    rw [if_neg hne]
    simp only [hfind, hlook, hdec, hact]
    simp
  rw [hstate]
  refine ⟨?_, rfl, ?_, rfl, rfl⟩
  · show lookupA (insertA s.tasks tid _) tid = _
    rw [lookupA_insertA, if_pos rfl]
  · show tid ∉ s.failed_tasks.filter (fun t => t ≠ tid)
    intro hmemf
    rw [List.mem_filter] at hmemf
    simp at hmemf

/-- C7 witness: the retry effects instantiated at the reachable state
`kState4` (single failed task `T` with `retry_count = 0`) and the
always-retry advisor. -/
theorem c7_retry_effects_witness :
    lookupA (handleFailureNode advRetry defaultSettings 3 kState4).tasks "T" =
      some { failedTaskT with retry_count := failedTaskT.retry_count + 1, status := TaskStatus.retrying, error := none } ∧
    (handleFailureNode advRetry defaultSettings 3 kState4).failed_tasks =
      kState4.failed_tasks.filter (fun t => t ≠ "T") ∧
    "T" ∉ (handleFailureNode advRetry defaultSettings 3 kState4).failed_tasks ∧
    (handleFailureNode advRetry defaultSettings 3 kState4).next_tasks = ["T"] ∧
    (handleFailureNode advRetry defaultSettings 3 kState4).current_task = some "T" :=
  c7_retry_effects kState4 advRetry defaultSettings 3 "T" failedTaskT retryDecision
    (by decide) (by decide) (by decide) rfl rfl

/-- C8 counterexample: the claimed invariant "`error` is non-null iff the
status is `Failed` or `Retrying`" is false: in the reachable state `rState5`
(task `T` just retried by the advisor) the task has status `Retrying` and
`error = none`, because the retry branch of the failure handler clears the
error while setting the status to `Retrying`. -/
theorem c8_counterexample :
    ¬ (∀ s : WorkflowState, Reachable s → ∀ id t, lookupA s.tasks id = some t →
        (t.error ≠ none ↔
          (t.status = TaskStatus.failed ∨ t.status = TaskStatus.retrying))) := by
  intro hclaim
  have h := hclaim rState5 rState5_reachable "T" retryingTaskT (by decide)
  have herr : retryingTaskT.error ≠ none := h.mpr (Or.inr (by decide))
  exact herr (by decide)

/-- C8 amended: in every reachable state a task's `error` field is non-null
iff its status is `Failed` or `Skipped` (a `Skipped` task keeps the error of
the failure that led to the skip; a `Retrying` task has its error cleared). -/
theorem c8_amended (s : WorkflowState) (h : Reachable s) (id : String) (t : Task)
    (hl : lookupA s.tasks id = some t) :
    t.error ≠ none ↔ (t.status = TaskStatus.failed ∨ t.status = TaskStatus.skipped) :=
  (reachable_inv h).errorIff id t hl

/-- C8 witness: the amended invariant instantiated at the reachable state
`kState5` and its skipped task `T`, which kept `error = some "boom"`. -/
theorem c8_amended_witness :
    skippedTaskT.error ≠ none ↔
      (skippedTaskT.status = TaskStatus.failed ∨
        skippedTaskT.status = TaskStatus.skipped) :=
  c8_amended kState5 kState5_reachable "T" skippedTaskT (by decide)

/-- C9: for every action dispatch whose `action_type` is outside the five
registered kinds, `ActionExecutor.execute` returns (it never raises to the
caller: the embedding is a total function because the Python body catches
every exception) a `status="error"` result whose message is the
unknown-action error text naming the offending tag. -/
theorem c9_unknown_action
    (handler : String → List (String × String) → Except String String)
    (action_type : String) (config : List (String × String))
    (h : action_type ∉ knownActionTypes) :
    executeAction handler action_type config =
      ActionResult.error ("Unknown action type: " ++ action_type) := by
  simp only [knownActionTypes, List.mem_cons, List.not_mem_nil, or_false, not_or] at h
  obtain ⟨h1, h2, h3, h4, h5⟩ := h
  unfold executeAction
  rw [if_neg h1, if_neg h2, if_neg h3, if_neg h4, if_neg h5]

/-- C9 witness: the dispatch scenario with `action_type = "nonexistent"`. -/
theorem c9_unknown_action_witness :
    "nonexistent" ∉ knownActionTypes ∧
    executeAction (fun _ _ => Except.ok "data") "nonexistent" [] =
      ActionResult.error ("Unknown action type: " ++ "nonexistent") :=
  ⟨by decide,
   c9_unknown_action (fun _ _ => Except.ok "data") "nonexistent" [] (by decide)⟩

/-- C10: when a dispatch ends in failure, the execute step leaves the
memory scratchpad, `completed_tasks`, the context and the `errors` log
unchanged, and changes no task entry other than the failed task's own;
`failed_tasks` gains exactly the failed id (while `next_tasks` and
`current_task` are the only other fields it touches). -/
theorem c10_failure_frame (s : WorkflowState) (err : String) (now : Nat)
    (tid : String) (rest : List String) (task : Task)
    (hnext : s.next_tasks = tid :: rest)
    (hlook : lookupA s.tasks tid = some task) :
    (executeNode (ExecResult.failure err) now s).memory = s.memory ∧
    (executeNode (ExecResult.failure err) now s).completed_tasks = s.completed_tasks ∧
    (executeNode (ExecResult.failure err) now s).context = s.context ∧
    (executeNode (ExecResult.failure err) now s).errors = s.errors ∧
    (∀ id, id ≠ tid →
        lookupA (executeNode (ExecResult.failure err) now s).tasks id
          = lookupA s.tasks id) ∧
    (executeNode (ExecResult.failure err) now s).failed_tasks
      = s.failed_tasks ++ [tid] := by
  refine ⟨?_, ?_, ?_, ?_, ?_, ?_⟩
  · simp only [executeNode, hnext, hlook]
  · simp only [executeNode, hnext, hlook]
  · simp only [executeNode, hnext, hlook]
  · simp only [executeNode, hnext, hlook]
  · intro id hne
    simp only [executeNode, hnext, hlook]
    rw [lookupA_insertA, if_neg (fun h => hne h.symm)]
  · simp only [executeNode, hnext, hlook]

/-- C10 witness: the frame property instantiated at the reachable state
`kState2` (pending task `T` about to fail). -/
theorem c10_failure_frame_witness :
    (executeNode (ExecResult.failure "boom") 2 kState2).memory = kState2.memory ∧
    (executeNode (ExecResult.failure "boom") 2 kState2).completed_tasks
      = kState2.completed_tasks ∧
    (executeNode (ExecResult.failure "boom") 2 kState2).context = kState2.context ∧
    (executeNode (ExecResult.failure "boom") 2 kState2).errors = kState2.errors ∧
    (∀ id, id ≠ "T" →
        lookupA (executeNode (ExecResult.failure "boom") 2 kState2).tasks id
          = lookupA kState2.tasks id) ∧
    (executeNode (ExecResult.failure "boom") 2 kState2).failed_tasks
      = kState2.failed_tasks ++ ["T"] :=
  c10_failure_frame kState2 "boom" 2 "T" [] (planTaskToTask descT)
    (by decide) (by decide)

end AgenticWorkflow
